import Mathlib

/-!
Verification development for the batching renderer implemented in
src/Ember/src/Renderer.cpp.

The renderer aggregates draw requests (quads, triangles, lines, cubes,
glyph quads) into CPU staging buffers and flushes them to the GPU as
indirect multi-draw submissions.  This file gives a shallow embedding of
the data model and of the operations of that file: float arithmetic is
modelled exactly over the rationals, the fixed staging arrays together
with their write cursors are modelled as lists whose length is the cursor
position, and every GPU submission performed by Renderer::Render is
recorded in an explicit submission log.  The hardware limit constants
declared in the header (which is not part of src/) are kept as tunable
parameters, following the specification, which lists them as
configuration constants.
-/

namespace Ember

/-- Embedding of glm::vec2 over the rationals. -/
@[ext]
structure Vec2 where
  x : ℚ
  y : ℚ
deriving DecidableEq, Repr

/-- Embedding of glm::vec3 over the rationals. -/
@[ext]
structure Vec3 where
  x : ℚ
  y : ℚ
  z : ℚ
deriving DecidableEq, Repr

/-- Embedding of glm::vec4 over the rationals. -/
@[ext]
structure Vec4 where
  x : ℚ
  y : ℚ
  z : ℚ
  w : ℚ
deriving DecidableEq, Repr

/-- Column-major 4x4 rational matrix mirroring glm::mat4 (m[i] is column i). -/
@[ext]
structure Mat4 where
  c0 : Vec4
  c1 : Vec4
  c2 : Vec4
  c3 : Vec4
deriving DecidableEq, Repr

/-- Matrix times column vector, in glm column-major convention. -/
def Mat4.mulVec (m : Mat4) (v : Vec4) : Vec4 :=
  ⟨m.c0.x * v.x + m.c1.x * v.y + m.c2.x * v.z + m.c3.x * v.w,
   m.c0.y * v.x + m.c1.y * v.y + m.c2.y * v.z + m.c3.y * v.w,
   m.c0.z * v.x + m.c1.z * v.y + m.c2.z * v.z + m.c3.z * v.w,
   m.c0.w * v.x + m.c1.w * v.y + m.c2.w * v.z + m.c3.w * v.w⟩

/-- Matrix product, column by column as glm computes it. -/
def Mat4.mul (a b : Mat4) : Mat4 :=
  ⟨a.mulVec b.c0, a.mulVec b.c1, a.mulVec b.c2, a.mulVec b.c3⟩

/-- glm::mat4(1.0f). -/
def Mat4.identity : Mat4 :=
  ⟨⟨1, 0, 0, 0⟩, ⟨0, 1, 0, 0⟩, ⟨0, 0, 1, 0⟩, ⟨0, 0, 0, 1⟩⟩

/-- glm::translate(glm::mat4(1.0f), v). -/
def translateM (v : Vec3) : Mat4 :=
  ⟨⟨1, 0, 0, 0⟩, ⟨0, 1, 0, 0⟩, ⟨0, 0, 1, 0⟩, ⟨v.x, v.y, v.z, 1⟩⟩

/-- glm::scale(glm::mat4(1.0f), v). -/
def scaleM (v : Vec3) : Mat4 :=
  ⟨⟨v.x, 0, 0, 0⟩, ⟨0, v.y, 0, 0⟩, ⟨0, 0, v.z, 0⟩, ⟨0, 0, 0, 1⟩⟩

/-- The pure rotation matrix that glm::rotate builds from an angle and an
axis (the Rodrigues formula).  The cosine and sine of the angle are
irrational in general, so they are taken as the parameters c and s_, and
axis stands for the axis already normalized by glm. -/
def rotationMat (c s_ : ℚ) (axis : Vec3) : Mat4 :=
  ⟨⟨c + (1 - c) * axis.x * axis.x,
    (1 - c) * axis.x * axis.y + s_ * axis.z,
    (1 - c) * axis.x * axis.z - s_ * axis.y, 0⟩,
   ⟨(1 - c) * axis.y * axis.x - s_ * axis.z,
    c + (1 - c) * axis.y * axis.y,
    (1 - c) * axis.y * axis.z + s_ * axis.x, 0⟩,
   ⟨(1 - c) * axis.z * axis.x + s_ * axis.y,
    (1 - c) * axis.z * axis.y - s_ * axis.x,
    c + (1 - c) * axis.z * axis.z, 0⟩,
   ⟨0, 0, 0, 1⟩⟩

/-- glm::rotate(m, angle, axis) = m * R. -/
def rotateM (m : Mat4) (c s_ : ℚ) (axis : Vec3) : Mat4 :=
  Mat4.mul m (rotationMat c s_ axis)

/-- Truncation of a vec4 to its first three components, as in the
assignment of a transformed corner to the vec3 position field of Vertex. -/
def Vec4.xyz (v : Vec4) : Vec3 := ⟨v.x, v.y, v.z⟩

/-- Embedding of the Vertex staging record: position, color, texture
coordinate, texture slot index and material id (the last two are floats
in the source). -/
structure Vertex where
  position : Vec3
  color : Vec4
  texture_coordinates : Vec2
  texture_id : ℚ
  material_id : ℚ
deriving DecidableEq, Repr

/-- Embedding of DrawElementsCommand, the indirect draw descriptor.  The
field vertex_count is the element (index) count despite its name, exactly
as in the source. -/
structure DrawElementsCommand where
  vertex_count : Nat
  instance_count : Nat
  first_index : Nat
  base_vertex : Nat
  base_instance : Nat
deriving DecidableEq, Repr

/-- The hardware limit constants MAX_VERTEX_COUNT, MAX_INDEX_COUNT,
MAX_TEXTURE_SLOTS and MAX_DRAW_COMMANDS are declared in the renderer
header, which is not part of src/; the specification lists them as
tunable configuration constants, so they are kept as parameters. -/
structure Limits where
  maxVertexCount : Nat
  maxIndexCount : Nat
  maxTextureSlots : Nat
  maxDrawCommands : Nat
deriving DecidableEq, Repr

/-- Per-primitive vertex count for a quad (4 vertices / 6 indices). -/
def QUAD_VERTEX_COUNT : Nat := 4

/-- Per-primitive vertex count for a triangle (3 vertices / 3 indices). -/
def TRIANGLE_VERTEX_COUNT : Nat := 3

/-- Per-primitive vertex count for a cube (24 vertices / 36 indices). -/
def CUBE_VERTEX_COUNT : Nat := 24

/-- Number of faces of a cube; each face is index-generated as a quad. -/
def CUBE_FACES : Nat := 6

/-- Modelled from the spec: the render flags are two booleans, wireframe
polygon mode and the origin convention flag selecting whether a 2D
position denotes the top-left corner of a shape versus its center
(RenderFlags lives in a header that is not part of src/). -/
structure RenderFlags where
  polygonMode : Bool
  topLeftCornerPos : Bool
deriving DecidableEq, Repr

/-- One GPU submission performed by Renderer::Render: the descriptors
actually covered by the indirect multi-draw call (the first
draw_count + 1 entries of the uploaded command table) together with the
byte ranges of the staging buffers uploaded for it. -/
structure Submission where
  descriptors : List DrawElementsCommand
  vertex_data : List Vertex
  index_data : List Nat
deriving DecidableEq, Repr

/-- A camera exposing projection and view matrices (external collaborator). -/
structure Camera where
  projection : Mat4
  view : Mat4
deriving DecidableEq, Repr

/-- Embedding of the RendererData singleton.  The staging arrays with
their write cursors become the lists vertices and indices (the written
prefix; StartBatch rewinds the cursors, i.e. resets the lists); the
texture slot table with texture_slot_index becomes the list textures of
the occupied slots; the draw command table is a total map from command
index to descriptor, persisting across batches exactly as the C array
does.  The field submissions is the log of GPU submissions issued so
far. -/
structure RendererData where
  current_shader : Nat
  index_offset : Nat
  textures : List Nat
  proj_view : Mat4
  num_of_vertices_in_batch : Nat
  draw_commands : Nat → DrawElementsCommand
  base_vert : Nat
  draw_count : Nat
  current_draw_command_vertex_size : Nat
  vertices : List Vertex
  indices : List Nat
  current_material_id : Nat
  flags : RenderFlags
  submissions : List Submission

/-- Identifier of the default shader owned by the renderer. -/
def defaultShaderId : Nat := 0

/-- State of the renderer right after Renderer::Init: the static
RendererData object is zero-initialized, except that current_material_id
is a uint32_t initialized with -1, which wraps to 2 ^ 32 - 1. -/
def initialRendererData : RendererData :=
  { current_shader := defaultShaderId
    index_offset := 0
    textures := []
    proj_view := Mat4.identity
    num_of_vertices_in_batch := 0
    draw_commands := fun _ => ⟨0, 0, 0, 0, 0⟩
    base_vert := 0
    draw_count := 0
    current_draw_command_vertex_size := 0
    vertices := []
    indices := []
    current_material_id := 2 ^ 32 - 1
    flags := ⟨false, false⟩
    submissions := [] }

/-- Renderer::StartBatch: clears the used portion of the texture slot
table, resets all per-batch counters and rewinds the staging write
cursors.  The draw command table and current_material_id are not touched. -/
def StartBatch (s : RendererData) : RendererData :=
  { s with textures := []
           num_of_vertices_in_batch := 0
           index_offset := 0
           base_vert := 0
           draw_count := 0
           current_draw_command_vertex_size := 0
           vertices := []
           indices := [] }

/-- Renderer::Render: uploads the command table and the written staging
ranges and issues DrawMultiIndirect(nullptr, draw_count + 1, 0); the
submission covers the first draw_count + 1 descriptors of the table. -/
def Render (s : RendererData) : RendererData :=
  { s with submissions := s.submissions ++
      [⟨(List.range (s.draw_count + 1)).map s.draw_commands, s.vertices, s.indices⟩] }

/-- Renderer::NewBatch: flush the batch as it stands, then start a new one. -/
def NewBatch (s : RendererData) : RendererData :=
  StartBatch (Render s)

/-- Renderer::BeginScene: stores the flags, computes projection * view,
selects the default shader, sets current_material_id to -1 (wrapping to
2 ^ 32 - 1 in the uint32_t field) and starts a fresh batch. -/
def BeginScene (camera : Camera) (flags : RenderFlags) (s : RendererData) : RendererData :=
  StartBatch { s with flags := flags
                      proj_view := Mat4.mul camera.projection camera.view
                      current_shader := defaultShaderId
                      current_material_id := 2 ^ 32 - 1 }

/-- Renderer::GoToNextDrawCommand: advance the command bookkeeping. -/
def GoToNextDrawCommand (s : RendererData) : RendererData :=
  { s with draw_count := s.draw_count + 1
           base_vert := s.base_vert + s.num_of_vertices_in_batch
           current_draw_command_vertex_size := 0 }

/-- Renderer::MakeCommand: finalize the entry at index draw_count of the
draw command table. -/
def MakeCommand (s : RendererData) : RendererData :=
  { s with draw_commands := (Function.update s.draw_commands s.draw_count
      ⟨s.current_draw_command_vertex_size, 1, 0, s.base_vert, s.draw_count⟩) }

/-- Renderer::EndScene: finalize the current draw command, advance, flush. -/
def EndScene (s : RendererData) : RendererData :=
  Render (GoToNextDrawCommand (MakeCommand s))

/-- Renderer::SetMaterialId. -/
def SetMaterialId (material_id : Nat) (s : RendererData) : RendererData :=
  { s with current_material_id := material_id }

/-- Renderer::CalculateSquareIndices: appends the six indices
offset, 1 + offset, 2 + offset, 2 + offset, 3 + offset, offset and
advances the running index offset by 4. -/
def CalculateSquareIndices (s : RendererData) : RendererData :=
  { s with indices := s.indices ++
      [s.index_offset, 1 + s.index_offset, 2 + s.index_offset,
       2 + s.index_offset, 3 + s.index_offset, s.index_offset]
           index_offset := s.index_offset + 4 }

/-- Renderer::CalculateTriangleIndices: appends three indices and
advances the running index offset by 3. -/
def CalculateTriangleIndices (s : RendererData) : RendererData :=
  { s with indices := s.indices ++
      [s.index_offset, 1 + s.index_offset, 2 + s.index_offset]
           index_offset := s.index_offset + 3 }

/-- The linear scan of Renderer::CalculateTextureIndex, carried out over
the occupied slot list with the running slot position i and the float
accumulator initialized to -1; a matching slot overwrites the
accumulator, so the scan yields the last match. -/
def scanAux (id : Nat) : List Nat → Nat → ℚ → ℚ
  | [], _, acc => acc
  | t :: rest, i, acc => scanAux id rest (i + 1) (if t = id then (i : ℚ) else acc)

/-- Scan of the whole occupied portion of the texture slot table. -/
def scanTexture (textures : List Nat) (id : Nat) : ℚ :=
  scanAux id textures 0 (-1)

/-- Renderer::CalculateTextureIndex (uint32_t overload): scan for the
handle; if absent append it at the next slot, remember the new index,
increment the slot count and, when the count reaches MAX_TEXTURE_SLOTS,
trigger a flush-and-restart; finally return the remembered index. -/
def CalculateTextureIndex (L : Limits) (id : Nat) (s : RendererData) : ℚ × RendererData :=
  if scanTexture s.textures id = -1 then
    ((s.textures.length : ℚ),
      if s.textures.length + 1 = L.maxTextureSlots then
        NewBatch { s with textures := s.textures ++ [id] }
      else
        { s with textures := s.textures ++ [id] })
  else
    (scanTexture s.textures id, s)

/-- Modelled from the spec: the unit quad corner positions, centered at
the origin with extent plus or minus 0.5 on X and Y and Z = 0
(QUAD_POSITIONS lives in the header, which is not part of src/). -/
def QUAD_POSITIONS : Nat → Vec4
  | 0 => ⟨-(1/2), -(1/2), 0, 1⟩
  | 1 => ⟨1/2, -(1/2), 0, 1⟩
  | 2 => ⟨1/2, 1/2, 0, 1⟩
  | _ => ⟨-(1/2), 1/2, 0, 1⟩

/-- Modelled from the spec: the triangle corner positions used by the
triangle emitter (TRIANGLE_POSITIONS lives in the header, which is not
part of src/; the claims do not depend on the concrete corner values). -/
def TRIANGLE_POSITIONS : Nat → Vec4
  | 0 => ⟨-(1/2), -(1/2), 0, 1⟩
  | 1 => ⟨1/2, -(1/2), 0, 1⟩
  | _ => ⟨0, 1/2, 0, 1⟩

/-- The four UV corners handed to the quad emitter. -/
@[ext]
structure TexCoords where
  t0 : Vec2
  t1 : Vec2
  t2 : Vec2
  t3 : Vec2
deriving DecidableEq, Repr

/-- Modelled from the spec: the default quad UV corners (TEX_COORDS lives
in the header, which is not part of src/; the claims do not depend on the
concrete values). -/
def TEX_COORDS : TexCoords := ⟨⟨0, 0⟩, ⟨1, 0⟩, ⟨1, 1⟩, ⟨0, 1⟩⟩

/-- Selection of tex_coords[i % 4] by the cube emitter. -/
def texCoordAt (tex : TexCoords) : Nat → Vec2
  | 0 => tex.t0
  | 1 => tex.t1
  | 2 => tex.t2
  | _ => tex.t3

/-- Modelled from the spec: the 24 cube corner positions, 6 faces times 4
corners of the unit cube (CUBE_POSITIONS lives in the header, which is
not part of src/; the claims do not depend on the concrete values). -/
def CUBE_POSITIONS_LIST : List Vec3 :=
  [⟨-(1/2), -(1/2), 1/2⟩, ⟨1/2, -(1/2), 1/2⟩, ⟨1/2, 1/2, 1/2⟩, ⟨-(1/2), 1/2, 1/2⟩,
   ⟨1/2, -(1/2), -(1/2)⟩, ⟨-(1/2), -(1/2), -(1/2)⟩, ⟨-(1/2), 1/2, -(1/2)⟩, ⟨1/2, 1/2, -(1/2)⟩,
   ⟨-(1/2), -(1/2), -(1/2)⟩, ⟨-(1/2), -(1/2), 1/2⟩, ⟨-(1/2), 1/2, 1/2⟩, ⟨-(1/2), 1/2, -(1/2)⟩,
   ⟨1/2, -(1/2), 1/2⟩, ⟨1/2, -(1/2), -(1/2)⟩, ⟨1/2, 1/2, -(1/2)⟩, ⟨1/2, 1/2, 1/2⟩,
   ⟨-(1/2), 1/2, 1/2⟩, ⟨1/2, 1/2, 1/2⟩, ⟨1/2, 1/2, -(1/2)⟩, ⟨-(1/2), 1/2, -(1/2)⟩,
   ⟨-(1/2), -(1/2), -(1/2)⟩, ⟨1/2, -(1/2), -(1/2)⟩, ⟨1/2, -(1/2), 1/2⟩, ⟨-(1/2), -(1/2), 1/2⟩]

/-- Total lookup into the cube corner table. -/
def CUBE_POSITIONS (i : Nat) : Vec3 := CUBE_POSITIONS_LIST.getD i ⟨0, 0, 0⟩

/-- The capacity check opening the core quad emitter: flush and restart
when appending QUAD_VERTEX_COUNT vertices would exceed MAX_VERTEX_COUNT. -/
def quadPreWrite (L : Limits) (s : RendererData) : RendererData :=
  if L.maxVertexCount < s.num_of_vertices_in_batch + QUAD_VERTEX_COUNT then NewBatch s else s

/-- Renderer::DrawQuad (transform, color, texture slot, UV corners): the
core quad emitter.  Capacity check, index generation, then four vertices
stamped with color, UV, texture slot and the float cast of
current_material_id; the accumulated command size counter advances by 6. -/
def DrawQuad (L : Limits) (translation : Mat4) (color : Vec4) (texture_id : ℚ)
    (tex : TexCoords) (s : RendererData) : RendererData :=
  let s1 := quadPreWrite L s
  let s2 := CalculateSquareIndices s1
  let mid : ℚ := (s2.current_material_id : ℚ)
  let vs : List Vertex :=
    [⟨(translation.mulVec (QUAD_POSITIONS 0)).xyz, color, tex.t0, texture_id, mid⟩,
     ⟨(translation.mulVec (QUAD_POSITIONS 1)).xyz, color, tex.t1, texture_id, mid⟩,
     ⟨(translation.mulVec (QUAD_POSITIONS 2)).xyz, color, tex.t2, texture_id, mid⟩,
     ⟨(translation.mulVec (QUAD_POSITIONS 3)).xyz, color, tex.t3, texture_id, mid⟩]
  { s2 with vertices := s2.vertices ++ vs
            num_of_vertices_in_batch := s2.num_of_vertices_in_batch + QUAD_VERTEX_COUNT
            current_draw_command_vertex_size := s2.current_draw_command_vertex_size + 6 }

/-- GetModelMatrix: under the top-left-corner convention the translation
is position plus half the size on X and Y; under the center convention it
is the position itself; both are composed with the size scale. -/
def GetModelMatrix (flags : RenderFlags) (position : Vec3) (size : Vec2) : Mat4 :=
  if flags.topLeftCornerPos then
    Mat4.mul (translateM ⟨position.x + size.x / 2, position.y + size.y / 2, position.z⟩)
      (scaleM ⟨size.x, size.y, 1⟩)
  else
    Mat4.mul (translateM ⟨position.x, position.y, position.z⟩)
      (scaleM ⟨size.x, size.y, 1⟩)

/-- Renderer::DrawQuad (position, size, color): plain-color quad through
GetModelMatrix with texture slot -1. -/
def DrawQuadPlain (L : Limits) (position : Vec3) (size : Vec2) (color : Vec4)
    (s : RendererData) : RendererData :=
  DrawQuad L (GetModelMatrix s.flags position size) color (-1) TEX_COORDS s

/-- Renderer::DrawQuad (position, size, texture, color): textured quad,
allocating a texture slot first, then emitting with the returned index. -/
def DrawQuadTextured (L : Limits) (position : Vec3) (size : Vec2) (textureId : Nat)
    (color : Vec4) (s : RendererData) : RendererData :=
  let model := GetModelMatrix s.flags position size
  let p := CalculateTextureIndex L textureId s
  DrawQuad L model color p.1 TEX_COORDS p.2

/-- The model matrix built by the plain-color DrawRotatedQuad variant:
translation directly from the position with Z forced to 0, composed with
the rotation and the size scale; the origin convention flag is not
consulted. -/
def rotatedQuadPlainModel (position : Vec3) (c s_ : ℚ) (axis : Vec3) (size : Vec2) : Mat4 :=
  Mat4.mul (Mat4.mul (translateM ⟨position.x, position.y, 0⟩) (rotationMat c s_ axis))
    (scaleM ⟨size.x, size.y, 1⟩)

/-- The model matrix built by the textured DrawRotatedQuad variant:
GetModelMatrix (which consults the origin convention flag) followed by
the rotation. -/
def rotatedQuadTexturedModel (flags : RenderFlags) (position : Vec3) (c s_ : ℚ)
    (axis : Vec3) (size : Vec2) : Mat4 :=
  rotateM (GetModelMatrix flags position size) c s_ axis

/-- Renderer::DrawRotatedQuad (position, rotation, orientation, size,
color): the plain-color rotated quad; c and s_ stand for the cosine and
sine of the rotation angle in radians, axis for the normalized rotation
orientation. -/
def DrawRotatedQuadPlain (L : Limits) (position : Vec3) (c s_ : ℚ) (axis : Vec3)
    (size : Vec2) (color : Vec4) (s : RendererData) : RendererData :=
  DrawQuad L (rotatedQuadPlainModel position c s_ axis size) color (-1) TEX_COORDS s

/-- Renderer::DrawRotatedQuad (position, rotation, orientation, size,
texture, color): the textured rotated quad through GetModelMatrix. -/
def DrawRotatedQuadTextured (L : Limits) (position : Vec3) (c s_ : ℚ) (axis : Vec3)
    (size : Vec2) (textureId : Nat) (color : Vec4) (s : RendererData) : RendererData :=
  let model := rotatedQuadTexturedModel s.flags position c s_ axis size
  let p := CalculateTextureIndex L textureId s
  DrawQuad L model color p.1 TEX_COORDS p.2

/-- The capacity check opening both triangle emitters.  The source
(Renderer.cpp lines 229 and 255) compares against QUAD_VERTEX_COUNT, not
TRIANGLE_VERTEX_COUNT. -/
def triPreWrite (L : Limits) (s : RendererData) : RendererData :=
  if L.maxVertexCount < s.num_of_vertices_in_batch + QUAD_VERTEX_COUNT then NewBatch s else s

/-- Renderer::DrawTriangle (position, size, color). -/
def DrawTriangle (L : Limits) (position : Vec3) (size : Vec2) (color : Vec4)
    (s : RendererData) : RendererData :=
  let s1 := triPreWrite L s
  let s2 := CalculateTriangleIndices s1
  let translation := GetModelMatrix s.flags position size
  let mid : ℚ := (s2.current_material_id : ℚ)
  let vs : List Vertex :=
    [⟨(translation.mulVec (TRIANGLE_POSITIONS 0)).xyz, color, ⟨0, 0⟩, -1, mid⟩,
     ⟨(translation.mulVec (TRIANGLE_POSITIONS 1)).xyz, color, ⟨0, 0⟩, -1, mid⟩,
     ⟨(translation.mulVec (TRIANGLE_POSITIONS 2)).xyz, color, ⟨0, 0⟩, -1, mid⟩]
  { s2 with vertices := s2.vertices ++ vs
            num_of_vertices_in_batch := s2.num_of_vertices_in_batch + TRIANGLE_VERTEX_COUNT
            current_draw_command_vertex_size := s2.current_draw_command_vertex_size + 3 }

/-- Renderer::DrawTriangle (position, rotation, orientation, size,
color): the rotated variant; the transform is computed before the
capacity check, the flags are unchanged by a flush either way. -/
def DrawTriangleRotated (L : Limits) (position : Vec3) (c s_ : ℚ) (axis : Vec3)
    (size : Vec2) (color : Vec4) (s : RendererData) : RendererData :=
  let translation := rotateM (GetModelMatrix s.flags position size) c s_ axis
  let s1 := triPreWrite L s
  let s2 := CalculateTriangleIndices s1
  let mid : ℚ := (s2.current_material_id : ℚ)
  let vs : List Vertex :=
    [⟨(translation.mulVec (TRIANGLE_POSITIONS 0)).xyz, color, ⟨0, 0⟩, -1, mid⟩,
     ⟨(translation.mulVec (TRIANGLE_POSITIONS 1)).xyz, color, ⟨0, 0⟩, -1, mid⟩,
     ⟨(translation.mulVec (TRIANGLE_POSITIONS 2)).xyz, color, ⟨0, 0⟩, -1, mid⟩]
  { s2 with vertices := s2.vertices ++ vs
            num_of_vertices_in_batch := s2.num_of_vertices_in_batch + TRIANGLE_VERTEX_COUNT
            current_draw_command_vertex_size := s2.current_draw_command_vertex_size + 3 }

/-- Renderer::DrawLine (p1, p2, color, width): builds translate to the
midpoint, rotate about Z, scale by (length, width, 1) and delegates to
the quad emitter with texture slot -1.  The segment length
sqrtf(x * x + y * y) and the cosine and sine of atan2f(y, x) are
irrational, so they are taken as the parameters len, c and s_. -/
def DrawLine (L : Limits) (p1 p2 : Vec2) (color : Vec4) (width len c s_ : ℚ)
    (st : RendererData) : RendererData :=
  DrawQuad L
    (Mat4.mul
      (Mat4.mul (translateM ⟨p1.x + (p2.x - p1.x) / 2, p1.y + (p2.y - p1.y) / 2, 0⟩)
        (rotationMat c s_ ⟨0, 0, 1⟩))
      (scaleM ⟨len, width, 1⟩))
    color (-1) TEX_COORDS st

/-- The capacity check opening the cube emitter. -/
def cubePreWrite (L : Limits) (s : RendererData) : RendererData :=
  if L.maxVertexCount < s.num_of_vertices_in_batch + CUBE_VERTEX_COUNT then NewBatch s else s

/-- Renderer::DrawCube (transform, color, texture slot, UV corners): six
quads of indices, 24 vertices with tex_coords[i % 4], command size
counter advanced by 36. -/
def DrawCube (L : Limits) (translation : Mat4) (color : Vec4) (texture_id : ℚ)
    (tex : TexCoords) (s : RendererData) : RendererData :=
  let s1 := cubePreWrite L s
  let s2 := CalculateSquareIndices (CalculateSquareIndices (CalculateSquareIndices
      (CalculateSquareIndices (CalculateSquareIndices (CalculateSquareIndices s1)))))
  let mid : ℚ := (s2.current_material_id : ℚ)
  let vs : List Vertex := (List.range CUBE_VERTEX_COUNT).map fun i =>
    ⟨(translation.mulVec ⟨(CUBE_POSITIONS i).x, (CUBE_POSITIONS i).y, (CUBE_POSITIONS i).z, 1⟩).xyz,
     color, texCoordAt tex (i % 4), texture_id, mid⟩
  { s2 with vertices := s2.vertices ++ vs
            num_of_vertices_in_batch := s2.num_of_vertices_in_batch + CUBE_VERTEX_COUNT
            current_draw_command_vertex_size := s2.current_draw_command_vertex_size + 36 }

/-- Modelled from the spec: glyph metrics looked up from the font; the
advance is in 1/64-pixel fixed point (Font and Glyph are external
collaborators, their definitions are not part of src/). -/
structure Glyph where
  size : Vec2
  bearing : Vec2
  advance_x : Int
  offset : ℚ

/-- Modelled from the spec: a font exposing per-character glyph lookup,
atlas width, height, size and the bound atlas texture. -/
structure Font where
  glyphs : Char → Glyph
  width : ℚ
  height : ℚ
  size : ℚ
  texture : Nat

/-- Modelled from the spec: TextureAtlas::CalculateSpriteCoordinate, the
normalized-UV-size computation given a pixel size and atlas dimensions. -/
def CalculateSpriteCoordinate (p : Vec2) (w h : ℚ) : Vec2 :=
  ⟨p.x / w, p.y / h⟩

/-- The slot allocation performed for one glyph between the capacity
check plus index generation and the vertex writes of RenderText. -/
def glyphAlloc (L : Limits) (fontTexture : Nat) (s : RendererData) : ℚ × RendererData :=
  CalculateTextureIndex L fontTexture (CalculateSquareIndices (quadPreWrite L s))

/-- The state of the renderer at the moment the vertex writes of one
glyph begin. -/
def glyphPreWrite (L : Limits) (fontTexture : Nat) (s : RendererData) : RendererData :=
  (glyphAlloc L fontTexture s).2

/-- The body of the per-character loop of Renderer::RenderText: glyph
metrics, UV rectangle with the epsilon biases, capacity check, index
generation, slot allocation for the atlas texture, four vertices, cursor
advance by (advance_x >> 6) * scale.x (the arithmetic right shift is
floor division by 64). -/
def RenderTextChar (L : Limits) (font : Font) (color : Vec4) (scl : Vec2) (y : ℚ)
    (acc : ℚ × RendererData) (ch : Char) : ℚ × RendererData :=
  let x := acc.1
  let s := acc.2
  let character := font.glyphs ch
  let normalized_width :=
    (CalculateSpriteCoordinate ⟨character.size.x, 0⟩ font.width font.height).x
      - (2 / 100000) * font.size
  let xpos := x + character.bearing.x * scl.x
  let ypos := y - (character.size.y - character.bearing.y) * scl.y
  let w := character.size.x * scl.x
  let h := character.size.y * scl.y
  let clean := (1 / 100000) * font.size
  let p := glyphAlloc L font.texture s
  let tex_id := p.1
  let s3 := p.2
  let mid : ℚ := (s3.current_material_id : ℚ)
  let vs : List Vertex :=
    [⟨⟨xpos, ypos, 0⟩, color, ⟨character.offset + clean, 1⟩, tex_id, mid⟩,
     ⟨⟨xpos + w, ypos, 0⟩, color, ⟨character.offset + normalized_width + clean, 1⟩, tex_id, mid⟩,
     ⟨⟨xpos + w, ypos + h, 0⟩, color, ⟨character.offset + normalized_width + clean, 0⟩, tex_id, mid⟩,
     ⟨⟨xpos, ypos + h, 0⟩, color, ⟨character.offset + clean, 0⟩, tex_id, mid⟩]
  let s4 := { s3 with vertices := s3.vertices ++ vs
                      num_of_vertices_in_batch := s3.num_of_vertices_in_batch + QUAD_VERTEX_COUNT
                      current_draw_command_vertex_size := s3.current_draw_command_vertex_size + 6 }
  (x + (Int.fdiv character.advance_x 64 : ℚ) * scl.x, s4)

/-- Renderer::RenderText (font, text, position, scale, color): the
per-character loop threading the cursor x and the renderer state. -/
def RenderText (L : Limits) (font : Font) (text : List Char) (pos scl : Vec2)
    (color : Vec4) (s : RendererData) : RendererData :=
  (text.foldl (RenderTextChar L font color scl pos.y) (pos.x, s)).2

/-! Helper lemmas shared by the claim theorems. -/

/-- Reading a concatenated list right at the length of the prefix yields
the appended element. -/
theorem getD_concat_length {α : Type} (l : List α) (a d : α) :
    (l ++ [a]).getD l.length d = a := by
  induction l with
  | nil => rfl
  | cons x xs ih =>
    simp only [List.cons_append, List.length_cons, List.getD_cons_succ]
    exact ih

/-- Reading the image of List.range under f below the bound yields f. -/
theorem rangeMap_getD (f : Nat → DrawElementsCommand) (n i : Nat) (d : DrawElementsCommand)
    (h : i < n) : ((List.range n).map f).getD i d = f i := by
  simp [List.getD, List.getElem?_map, List.getElem?_range h]

/-- The last column of a matrix product. -/
theorem Mat4.mul_c3 (a b : Mat4) : (Mat4.mul a b).c3 = a.mulVec b.c3 := rfl

/-- Applying a matrix to the homogeneous unit point returns the last
column. -/
theorem Mat4.mulVec_unitw (m : Mat4) : m.mulVec ⟨0, 0, 0, 1⟩ = m.c3 := by
  ext <;> simp [Mat4.mulVec]

/-- The last column of a translation. -/
theorem translateM_c3 (v : Vec3) : (translateM v).c3 = ⟨v.x, v.y, v.z, 1⟩ := rfl

/-- The last column of a scale. -/
theorem scaleM_c3 (v : Vec3) : (scaleM v).c3 = ⟨0, 0, 0, 1⟩ := rfl

/-- The last column of the glm rotation matrix. -/
theorem rotationMat_c3 (c s_ : ℚ) (axis : Vec3) :
    (rotationMat c s_ axis).c3 = ⟨0, 0, 0, 1⟩ := rfl

/-- A flush-and-restart leaves the active material id unchanged. -/
theorem NewBatch_material (s : RendererData) :
    (NewBatch s).current_material_id = s.current_material_id := rfl

/-- The quad capacity check leaves the active material id unchanged. -/
theorem quadPreWrite_material (L : Limits) (s : RendererData) :
    (quadPreWrite L s).current_material_id = s.current_material_id := by
  unfold quadPreWrite
  split <;> rfl

/-- The triangle capacity check leaves the active material id unchanged. -/
theorem triPreWrite_material (L : Limits) (s : RendererData) :
    (triPreWrite L s).current_material_id = s.current_material_id := by
  unfold triPreWrite
  split <;> rfl

/-- The cube capacity check leaves the active material id unchanged. -/
theorem cubePreWrite_material (L : Limits) (s : RendererData) :
    (cubePreWrite L s).current_material_id = s.current_material_id := by
  unfold cubePreWrite
  split <;> rfl

/-- The texture slot allocator leaves the active material id unchanged. -/
theorem CalculateTextureIndex_material (L : Limits) (id : Nat) (s : RendererData) :
    (CalculateTextureIndex L id s).2.current_material_id = s.current_material_id := by
  unfold CalculateTextureIndex
  split
  · split <;> rfl
  · rfl

/-- The texture slot allocator either keeps the batch vertex count or
resets it to 0 by flushing. -/
theorem CalculateTextureIndex_num (L : Limits) (id : Nat) (s : RendererData) :
    (CalculateTextureIndex L id s).2.num_of_vertices_in_batch = s.num_of_vertices_in_batch ∨
    (CalculateTextureIndex L id s).2.num_of_vertices_in_batch = 0 := by
  unfold CalculateTextureIndex
  split
  · split
    · right; rfl
    · left; rfl
  · left; rfl

/-- A scan for a handle that is absent leaves the accumulator untouched. -/
theorem scanAux_not_mem (id : Nat) (l : List Nat) (hn : id ∉ l) :
    ∀ i acc, scanAux id l i acc = acc := by
  induction l with
  | nil => intro i acc; rfl
  | cons t rest ih =>
    intro i acc
    have ht : ¬ t = id := fun h => hn (by simp [h])
    have hr : id ∉ rest := fun h => hn (List.mem_cons_of_mem _ h)
    simp [scanAux, ht, ih hr]

/-- A scan over a table ending in the handle, absent earlier, returns the
slot index of that last entry. -/
theorem scanAux_concat_self (id : Nat) (l : List Nat) (hn : id ∉ l) :
    ∀ i acc, scanAux id (l ++ [id]) i acc = ((i + l.length : Nat) : ℚ) := by
  induction l with
  | nil =>
    intro i acc
    simp [scanAux, scanAux_not_mem]
  | cons t rest ih =>
    intro i acc
    have ht : ¬ t = id := fun h => hn (by simp [h])
    have hr : id ∉ rest := fun h => hn (List.mem_cons_of_mem _ h)
    simp only [List.cons_append, scanAux, List.append_eq]
    rw [if_neg ht, ih hr (i + 1) acc]
    simp only [List.length_cons]
    push_cast
    ring

/-- A scan for a handle present in the table returns a slot index, which
is a natural number cast to the float accumulator. -/
theorem scanAux_mem (id : Nat) (l : List Nat) (hm : id ∈ l) :
    ∀ i acc, ∃ n : Nat, scanAux id l i acc = (n : ℚ) := by
  induction l with
  | nil => cases hm
  | cons t rest ih =>
    intro i acc
    by_cases hr : id ∈ rest
    · obtain ⟨n, hn⟩ := ih hr (i + 1) (if t = id then (i : ℚ) else acc)
      exact ⟨n, by simpa [scanAux] using hn⟩
    · have ht : t = id := by
        rcases List.mem_cons.mp hm with h | h
        · exact h.symm
        · exact absurd h hr
      refine ⟨i, ?_⟩
      simp [scanAux, ht, scanAux_not_mem id rest hr]

/-- A natural number cast into the rationals is never the -1 sentinel. -/
theorem natCast_ne_negone (n : Nat) : (n : ℚ) ≠ -1 := by
  intro h
  have h0 : (0 : ℚ) ≤ (n : ℚ) := Nat.cast_nonneg n
  rw [h] at h0
  norm_num at h0

/-- Scanning for an absent handle yields the -1 sentinel. -/
theorem scanTexture_not_mem (id : Nat) (l : List Nat) (hn : id ∉ l) :
    scanTexture l id = -1 :=
  scanAux_not_mem id l hn 0 (-1)

/-- Scanning a table ending in the handle, absent earlier, yields the
index of that entry. -/
theorem scanTexture_concat_self (id : Nat) (l : List Nat) (hn : id ∉ l) :
    scanTexture (l ++ [id]) id = (l.length : ℚ) := by
  simpa using scanAux_concat_self id l hn 0 (-1)

/-- Allocator branch: the handle was found by the scan, nothing changes. -/
theorem calcTex_found (L : Limits) (id : Nat) (t : RendererData)
    (h : ¬ scanTexture t.textures id = -1) :
    CalculateTextureIndex L id t = (scanTexture t.textures id, t) := by
  unfold CalculateTextureIndex
  rw [if_neg h]

/-- Allocator branch: the handle is appended and the table does not fill. -/
theorem calcTex_alloc_noflush (L : Limits) (id : Nat) (t : RendererData)
    (h : scanTexture t.textures id = -1)
    (h2 : ¬ (t.textures.length + 1 = L.maxTextureSlots)) :
    CalculateTextureIndex L id t =
      ((t.textures.length : ℚ), { t with textures := t.textures ++ [id] }) := by
  unfold CalculateTextureIndex
  rw [if_pos h, if_neg h2]

/-- Allocator branch: the handle is appended, the table fills, a
flush-and-restart follows the slot assignment. -/
theorem calcTex_alloc_flush (L : Limits) (id : Nat) (t : RendererData)
    (h : scanTexture t.textures id = -1)
    (h2 : t.textures.length + 1 = L.maxTextureSlots) :
    CalculateTextureIndex L id t =
      ((t.textures.length : ℚ), NewBatch { t with textures := t.textures ++ [id] }) := by
  unfold CalculateTextureIndex
  rw [if_pos h, if_pos h2]

/-! Claim theorems. -/

/-- Claim C6: every call of the core quad emitter appends exactly 6
indices whose values are the relative sequence [0, 1, 2, 2, 3, 0], each
offset by the running index offset of the batch the quad is appended to
(the state after the capacity check), and that running offset then
advances by exactly 4. -/
theorem c6_quad_index_pattern (L : Limits) (translation : Mat4) (color : Vec4)
    (texture_id : ℚ) (tex : TexCoords) (s : RendererData) :
    (DrawQuad L translation color texture_id tex s).indices =
      (quadPreWrite L s).indices ++
        [(quadPreWrite L s).index_offset, 1 + (quadPreWrite L s).index_offset,
         2 + (quadPreWrite L s).index_offset, 2 + (quadPreWrite L s).index_offset,
         3 + (quadPreWrite L s).index_offset, (quadPreWrite L s).index_offset] ∧
    (DrawQuad L translation color texture_id tex s).index_offset =
      (quadPreWrite L s).index_offset + 4 := by
  constructor <;> rfl

/-- Claim C7: DrawQuad with position (10, 20, 0) and size (4, 6) produces
a model transform whose translation column is (12, 23, 0) under the
top-left-corner convention and (10, 20, 0) under the center-origin
convention, the convention being the flag stored by BeginScene. -/
theorem c7_model_translation_conventions (p : Bool) (camera : Camera)
    (flags : RenderFlags) (s : RendererData) :
    (GetModelMatrix ⟨p, true⟩ ⟨10, 20, 0⟩ ⟨4, 6⟩).c3 = ⟨12, 23, 0, 1⟩ ∧
    (GetModelMatrix ⟨p, false⟩ ⟨10, 20, 0⟩ ⟨4, 6⟩).c3 = ⟨10, 20, 0, 1⟩ ∧
    (BeginScene camera flags s).flags = flags := by
  refine ⟨?_, ?_, rfl⟩ <;>
    · simp only [GetModelMatrix]
      norm_num [Mat4.mul_c3, scaleM_c3, Mat4.mulVec_unitw, translateM_c3]

/-- Claim C9: both DrawTriangle variants check capacity against
QUAD_VERTEX_COUNT (4) rather than TRIANGLE_VERTEX_COUNT (3): a flush
occurs exactly when fewer than 4 vertex slots remain, so in particular a
triangle whose 3 vertices would still fit triggers a flush-and-restart
whenever 4 would not fit. -/
theorem c9_triangle_uses_quad_capacity_check (L : Limits) (position : Vec3)
    (size : Vec2) (color : Vec4) (c s_ : ℚ) (axis : Vec3) (st : RendererData) :
    (DrawTriangle L position size color st).submissions.length =
      st.submissions.length +
        (if L.maxVertexCount < st.num_of_vertices_in_batch + QUAD_VERTEX_COUNT
          then 1 else 0) ∧
    (DrawTriangleRotated L position c s_ axis size color st).submissions.length =
      st.submissions.length +
        (if L.maxVertexCount < st.num_of_vertices_in_batch + QUAD_VERTEX_COUNT
          then 1 else 0) ∧
    (st.num_of_vertices_in_batch + TRIANGLE_VERTEX_COUNT ≤ L.maxVertexCount ∧
        L.maxVertexCount < st.num_of_vertices_in_batch + QUAD_VERTEX_COUNT →
      (DrawTriangle L position size color st).submissions.length =
        st.submissions.length + 1) := by
  have key : (triPreWrite L st).submissions.length =
      st.submissions.length +
        (if L.maxVertexCount < st.num_of_vertices_in_batch + QUAD_VERTEX_COUNT
          then 1 else 0) := by
    unfold triPreWrite
    split <;> simp_all [NewBatch, StartBatch, Render]
  refine ⟨?_, ?_, ?_⟩
  · simpa [DrawTriangle, CalculateTriangleIndices] using key
  · simpa [DrawTriangleRotated, CalculateTriangleIndices] using key
  · intro h
    rw [if_pos h.2] at key
    simpa [DrawTriangle, CalculateTriangleIndices] using key

/-- Witness for C9 at MAX_VERTEX_COUNT = 7 with 4 vertices in the batch:
the triangle would fit (4 + 3 is at most 7) yet a flush occurs because
the check uses the quad requirement (4 + 4 exceeds 7). -/
theorem c9_triangle_uses_quad_capacity_check_witness :
    ({ initialRendererData with num_of_vertices_in_batch := 4 } :
        RendererData).num_of_vertices_in_batch + TRIANGLE_VERTEX_COUNT ≤ 7 ∧
    7 < ({ initialRendererData with num_of_vertices_in_batch := 4 } :
        RendererData).num_of_vertices_in_batch + QUAD_VERTEX_COUNT ∧
    (DrawTriangle ⟨7, 12, 32, 4⟩ ⟨0, 0, 0⟩ ⟨1, 1⟩ ⟨1, 1, 1, 1⟩
        { initialRendererData with num_of_vertices_in_batch := 4 }).submissions.length =
      ({ initialRendererData with num_of_vertices_in_batch := 4 } :
        RendererData).submissions.length + 1 := by
  refine ⟨by decide, by decide, ?_⟩
  exact (c9_triangle_uses_quad_capacity_check ⟨7, 12, 32, 4⟩ ⟨0, 0, 0⟩ ⟨1, 1⟩
    ⟨1, 1, 1, 1⟩ 0 0 ⟨0, 0, 1⟩
    { initialRendererData with num_of_vertices_in_batch := 4 }).2.2 ⟨by decide, by decide⟩

/-- Claim C5: within a batch the texture slot allocator is idempotent per
handle.  A first allocation of an absent handle (that does not fill the
table) returns the next slot index and grows the table by exactly that
slot; calling the allocator again for the same handle returns the same
index and leaves the state unchanged, and in general a call for any
handle already in the table leaves the state unchanged, so K primitives
referencing one handle occupy exactly one slot. -/
theorem c5_texture_dedup_idempotent (L : Limits) (id : Nat) (s t : RendererData)
    (h1 : id ∉ s.textures) (h2 : s.textures.length + 1 < L.maxTextureSlots)
    (h3 : id ∈ t.textures) :
    (CalculateTextureIndex L id s).1 = (s.textures.length : ℚ) ∧
    (CalculateTextureIndex L id s).2 = { s with textures := s.textures ++ [id] } ∧
    CalculateTextureIndex L id (CalculateTextureIndex L id s).2 =
      CalculateTextureIndex L id s ∧
    (CalculateTextureIndex L id t).2 = t := by
  have hscan : scanTexture s.textures id = -1 := scanTexture_not_mem id s.textures h1
  have hne : ¬ (s.textures.length + 1 = L.maxTextureSlots) := Nat.ne_of_lt h2
  have key : CalculateTextureIndex L id s =
      ((s.textures.length : ℚ), { s with textures := s.textures ++ [id] }) :=
    calcTex_alloc_noflush L id s hscan hne
  have hscan2 : scanTexture
      ({ s with textures := s.textures ++ [id] } : RendererData).textures id =
      (s.textures.length : ℚ) := scanTexture_concat_self id s.textures h1
  have hfound2 : ¬ scanTexture
      ({ s with textures := s.textures ++ [id] } : RendererData).textures id = -1 := by
    rw [hscan2]
    exact natCast_ne_negone _
  have key2 : CalculateTextureIndex L id
      ({ s with textures := s.textures ++ [id] } : RendererData) =
      ((s.textures.length : ℚ), { s with textures := s.textures ++ [id] }) := by
    rw [calcTex_found L id _ hfound2, hscan2]
  obtain ⟨n, hn⟩ := scanAux_mem id t.textures h3 0 (-1)
  have hscant : scanTexture t.textures id = (n : ℚ) := hn
  have hfoundt : ¬ scanTexture t.textures id = -1 := by
    rw [hscant]
    exact natCast_ne_negone _
  have key3 : (CalculateTextureIndex L id t).2 = t := by
    rw [calcTex_found L id t hfoundt]
  refine ⟨by rw [key], by rw [key], ?_, key3⟩
  simp only [key]
  exact key2

/-- Witness for C5: allocating handle 7 in a fresh table at
MAX_TEXTURE_SLOTS = 32 yields slot 0, grows the table to [7], is
idempotent on repetition, and a call for a handle already in a table
changes nothing. -/
theorem c5_texture_dedup_idempotent_witness :
    7 ∉ initialRendererData.textures ∧
    initialRendererData.textures.length + 1 < (32 : Nat) ∧
    7 ∈ ({ initialRendererData with textures := [5, 7] } : RendererData).textures ∧
    ((CalculateTextureIndex ⟨1000, 1500, 32, 4⟩ 7 initialRendererData).1 =
        (initialRendererData.textures.length : ℚ) ∧
      (CalculateTextureIndex ⟨1000, 1500, 32, 4⟩ 7 initialRendererData).2 =
        { initialRendererData with textures := initialRendererData.textures ++ [7] } ∧
      CalculateTextureIndex ⟨1000, 1500, 32, 4⟩ 7
          (CalculateTextureIndex ⟨1000, 1500, 32, 4⟩ 7 initialRendererData).2 =
        CalculateTextureIndex ⟨1000, 1500, 32, 4⟩ 7 initialRendererData ∧
      (CalculateTextureIndex ⟨1000, 1500, 32, 4⟩ 7
          { initialRendererData with textures := [5, 7] }).2 =
        { initialRendererData with textures := [5, 7] }) :=
  ⟨by decide, by decide, by decide,
    c5_texture_dedup_idempotent ⟨1000, 1500, 32, 4⟩ 7 initialRendererData
      { initialRendererData with textures := [5, 7] } (by decide) (by decide) (by decide)⟩

/-- Counterexample to claim C3 as stated: with MAX_TEXTURE_SLOTS = 2 and
one slot already occupied by handle 7, allocating handle 9 returns slot
index 1 and triggers the flush, but the flush clears the slot table, so
slot 1 of the state in which the current primitive will be emitted no
longer refers to handle 9 — the returned index is not a valid reference
to that texture. -/
theorem c3_counterexample_slot_invalidated_by_flush :
    (CalculateTextureIndex ⟨1000, 1500, 2, 4⟩ 9
        { initialRendererData with textures := [7] }).1 = 1 ∧
    (CalculateTextureIndex ⟨1000, 1500, 2, 4⟩ 9
        { initialRendererData with textures := [7] }).2.textures = [] ∧
    ¬ (CalculateTextureIndex ⟨1000, 1500, 2, 4⟩ 9
        { initialRendererData with textures := [7] }).2.textures.getD 1 0 = 9 := by
  decide

/-- Claim C3 as amended: when the allocator appends a handle and the slot
count thereby reaches MAX_TEXTURE_SLOTS, a flush-and-restart triggers
immediately after the slot assignment (one more submission is issued),
the pre-flush slot index is returned, and the next batch starts with an
empty slot table, so the next texture allocated afterwards occupies slot
0; however the returned index refers to the cleared table, not to a slot
of the new batch still holding the texture. -/
theorem c3_slot_fill_flush_behavior (L : Limits) (id id2 : Nat) (s : RendererData)
    (h0 : 1 < L.maxTextureSlots) (h1 : id ∉ s.textures)
    (h2 : s.textures.length + 1 = L.maxTextureSlots) :
    (CalculateTextureIndex L id s).1 = (s.textures.length : ℚ) ∧
    (CalculateTextureIndex L id s).2.submissions.length = s.submissions.length + 1 ∧
    (CalculateTextureIndex L id s).2.textures = [] ∧
    (CalculateTextureIndex L id2 (CalculateTextureIndex L id s).2).1 = 0 ∧
    (CalculateTextureIndex L id2 (CalculateTextureIndex L id s).2).2.textures = [id2] := by
  have hscan : scanTexture s.textures id = -1 := scanTexture_not_mem id s.textures h1
  have key : CalculateTextureIndex L id s =
      ((s.textures.length : ℚ), NewBatch { s with textures := s.textures ++ [id] }) :=
    calcTex_alloc_flush L id s hscan h2
  have hsecond : CalculateTextureIndex L id2
      (NewBatch { s with textures := s.textures ++ [id] }) =
      (((NewBatch { s with textures := s.textures ++ [id] }).textures.length : ℚ),
        { (NewBatch { s with textures := s.textures ++ [id] }) with
          textures := (NewBatch { s with textures := s.textures ++ [id] }).textures
            ++ [id2] }) :=
    calcTex_alloc_noflush L id2 (NewBatch { s with textures := s.textures ++ [id] })
      (show scanTexture [] id2 = -1 from rfl)
      (show ¬ ((0 : Nat) + 1 = L.maxTextureSlots) from by omega)
  refine ⟨by rw [key], ?_, by rw [key]; rfl, ?_, ?_⟩
  · rw [key]
    show (StartBatch (Render _)).submissions.length = _
    simp [StartBatch, Render]
  · simp only [key]
    rw [hsecond]
    show ((([] : List Nat).length : ℚ)) = 0
    norm_num
  · simp only [key]
    rw [hsecond]
    show ([] : List Nat) ++ [id2] = [id2]
    rfl

/-- Witness for the amended C3 at MAX_TEXTURE_SLOTS = 2, table [7],
allocated handle 9, follow-up handle 11. -/
theorem c3_slot_fill_flush_behavior_witness :
    (1 : Nat) < 2 ∧
    9 ∉ ({ initialRendererData with textures := [7] } : RendererData).textures ∧
    ({ initialRendererData with textures := [7] } : RendererData).textures.length + 1 = 2 ∧
    ((CalculateTextureIndex ⟨1000, 1500, 2, 4⟩ 9
        { initialRendererData with textures := [7] }).1 =
      (({ initialRendererData with textures := [7] } :
          RendererData).textures.length : ℚ) ∧
      (CalculateTextureIndex ⟨1000, 1500, 2, 4⟩ 9
          { initialRendererData with textures := [7] }).2.submissions.length =
        ({ initialRendererData with textures := [7] } :
          RendererData).submissions.length + 1 ∧
      (CalculateTextureIndex ⟨1000, 1500, 2, 4⟩ 9
          { initialRendererData with textures := [7] }).2.textures = [] ∧
      (CalculateTextureIndex ⟨1000, 1500, 2, 4⟩ 11
          (CalculateTextureIndex ⟨1000, 1500, 2, 4⟩ 9
            { initialRendererData with textures := [7] }).2).1 = 0 ∧
      (CalculateTextureIndex ⟨1000, 1500, 2, 4⟩ 11
          (CalculateTextureIndex ⟨1000, 1500, 2, 4⟩ 9
            { initialRendererData with textures := [7] }).2).2.textures = [11]) :=
  ⟨by decide, by decide, by decide,
    c3_slot_fill_flush_behavior ⟨1000, 1500, 2, 4⟩ 9 11
      { initialRendererData with textures := [7] } (by decide) (by decide) (by decide)⟩

/-- A one-quad scene used to exhibit the descriptor count of a flush. -/
def c2Scene : RendererData :=
  DrawQuadPlain ⟨1000, 1500, 32, 4⟩ ⟨0, 0, 0⟩ ⟨1, 1⟩ ⟨1, 1, 1, 1⟩
    (BeginScene ⟨Mat4.identity, Mat4.identity⟩ ⟨false, false⟩ initialRendererData)

/-- Counterexample to claim C2 as stated: after a scene with one quad,
EndScene finalizes exactly one draw command (draw_count becomes 1), yet
the flush covers 2 descriptors, not 1: the submitted descriptor count is
draw_count + 1, not the number of finalized commands. -/
theorem c2_counterexample_extra_descriptor :
    ((EndScene c2Scene).submissions.getD 0 ⟨[], [], []⟩).descriptors.length = 2 ∧
    (GoToNextDrawCommand (MakeCommand c2Scene)).draw_count = 1 ∧
    ¬ ((EndScene c2Scene).submissions.getD 0 ⟨[], [], []⟩).descriptors.length =
        (GoToNextDrawCommand (MakeCommand c2Scene)).draw_count := by
  decide

/-- Claim C2 as amended: every flush issues exactly one indirect
multi-draw call covering draw_count + 1 descriptors — one more than the
number of finalized draw commands.  For EndScene from any state: the
finalized command count becomes draw_count + 1, the submission covers
draw_count + 2 descriptors, the entry at index draw_count is the command
finalized from the current counters, and the trailing extra entry is the
stale table entry at index draw_count + 1, untouched by this scene. -/
theorem c2_flush_descriptor_count (s : RendererData) :
    ((Render s).submissions.getD s.submissions.length ⟨[], [], []⟩).descriptors.length =
      s.draw_count + 1 ∧
    (GoToNextDrawCommand (MakeCommand s)).draw_count = s.draw_count + 1 ∧
    ((EndScene s).submissions.getD s.submissions.length ⟨[], [], []⟩).descriptors.length =
      (s.draw_count + 1) + 1 ∧
    ((EndScene s).submissions.getD s.submissions.length ⟨[], [], []⟩).descriptors.getD
        s.draw_count ⟨0, 0, 0, 0, 0⟩ =
      ⟨s.current_draw_command_vertex_size, 1, 0, s.base_vert, s.draw_count⟩ ∧
    ((EndScene s).submissions.getD s.submissions.length ⟨[], [], []⟩).descriptors.getD
        (s.draw_count + 1) ⟨0, 0, 0, 0, 0⟩ = s.draw_commands (s.draw_count + 1) := by
  have hrender : (Render s).submissions = s.submissions ++
      [⟨(List.range (s.draw_count + 1)).map s.draw_commands, s.vertices, s.indices⟩] := rfl
  have hsub : (EndScene s).submissions = s.submissions ++
      [⟨(List.range (s.draw_count + 1 + 1)).map
          (Function.update s.draw_commands s.draw_count
            ⟨s.current_draw_command_vertex_size, 1, 0, s.base_vert, s.draw_count⟩),
        s.vertices, s.indices⟩] := rfl
  refine ⟨?_, rfl, ?_, ?_, ?_⟩
  · rw [hrender, getD_concat_length]
    simp
  · rw [hsub, getD_concat_length]
    simp
  · rw [hsub, getD_concat_length]
    rw [rangeMap_getD _ _ _ _ (by omega)]
    rw [Function.update_same]
  · rw [hsub, getD_concat_length]
    rw [rangeMap_getD _ _ _ _ (by omega)]
    rw [Function.update_noteq (by omega)]

/-- The hardware limits used for the C1 failing scene:
MAX_VERTEX_COUNT = 8, so two quads fill a batch and the third forces the
implicit flush-and-restart. -/
def c1Limits : Limits := ⟨8, 12, 32, 4⟩

/-- The C1 failing scene: three quads under MAX_VERTEX_COUNT = 8
(spec section 8: MAX_VERTEX_COUNT / 4 + 1 quads produce exactly two GPU
submissions), then EndScene. -/
def c1Scene : RendererData :=
  EndScene (DrawQuadPlain c1Limits ⟨0, 0, 0⟩ ⟨1, 1⟩ ⟨1, 1, 1, 1⟩
    (DrawQuadPlain c1Limits ⟨2, 0, 0⟩ ⟨1, 1⟩ ⟨1, 1, 1, 1⟩
      (DrawQuadPlain c1Limits ⟨4, 0, 0⟩ ⟨1, 1⟩ ⟨1, 1, 1, 1⟩
        (BeginScene ⟨Mat4.identity, Mat4.identity⟩ ⟨false, false⟩ initialRendererData))))

/-- Claim C1 fails on the code: in the three-quad scene the implicit
flush-and-restart issues the first submission with its 12 in-flight
indices uploaded but with descriptors covering 0 indices (MakeCommand is
never invoked on the flush-and-restart path, so the submitted descriptor
is the stale zero-initialized table entry), and the end-of-scene
submission covers only the 6 indices of the new batch; the descriptors of
the two submissions together cover 6 of the 18 indices emitted, so the
geometry emitted before the split is never covered by any submitted
descriptor. -/
theorem c1_flush_descriptor_coverage_gap :
    c1Scene.submissions.length = 2 ∧
    (c1Scene.submissions.getD 0 ⟨[], [], []⟩).index_data.length = 12 ∧
    ((c1Scene.submissions.getD 0 ⟨[], [], []⟩).descriptors.map
        (fun cmd => cmd.vertex_count)).sum = 0 ∧
    (c1Scene.submissions.getD 1 ⟨[], [], []⟩).index_data.length = 6 ∧
    ((c1Scene.submissions.getD 1 ⟨[], [], []⟩).descriptors.map
        (fun cmd => cmd.vertex_count)).sum = 6 := by
  decide

/-- The quad index generation leaves the batch vertex count unchanged. -/
theorem CalculateSquareIndices_num (s : RendererData) :
    (CalculateSquareIndices s).num_of_vertices_in_batch = s.num_of_vertices_in_batch := rfl

/-- The per-glyph slot allocation leaves the active material id
unchanged. -/
theorem glyphAlloc_material (L : Limits) (fontTexture : Nat) (s : RendererData) :
    (glyphAlloc L fontTexture s).2.current_material_id = s.current_material_id := by
  unfold glyphAlloc
  rw [CalculateTextureIndex_material]
  exact quadPreWrite_material L s

/-- Claim C4: before any emitter writes a vertex, the batch vertex count
plus the vertex requirement of the primitive is at most MAX_VERTEX_COUNT
(quad, triangle, cube and text glyph at their respective pre-write
states; the line emitter delegates to the quad emitter, writing its four
vertices into the quad-checked batch), and whenever appending would
violate the bound a flush-and-restart is performed first. -/
theorem c4_capacity_invariant (L : Limits) (s : RendererData) (fontTexture : Nat)
    (p1 p2 : Vec2) (lineColor : Vec4) (width len lc ls : ℚ)
    (hcube : CUBE_VERTEX_COUNT ≤ L.maxVertexCount) :
    (quadPreWrite L s).num_of_vertices_in_batch + QUAD_VERTEX_COUNT ≤ L.maxVertexCount ∧
    (triPreWrite L s).num_of_vertices_in_batch + TRIANGLE_VERTEX_COUNT ≤ L.maxVertexCount ∧
    (cubePreWrite L s).num_of_vertices_in_batch + CUBE_VERTEX_COUNT ≤ L.maxVertexCount ∧
    (glyphPreWrite L fontTexture s).num_of_vertices_in_batch + QUAD_VERTEX_COUNT ≤
      L.maxVertexCount ∧
    (L.maxVertexCount < s.num_of_vertices_in_batch + QUAD_VERTEX_COUNT →
      quadPreWrite L s = NewBatch s) ∧
    (L.maxVertexCount < s.num_of_vertices_in_batch + CUBE_VERTEX_COUNT →
      cubePreWrite L s = NewBatch s) ∧
    (DrawLine L p1 p2 lineColor width len lc ls s).num_of_vertices_in_batch =
      (quadPreWrite L s).num_of_vertices_in_batch + QUAD_VERTEX_COUNT := by
  have hq : (quadPreWrite L s).num_of_vertices_in_batch + QUAD_VERTEX_COUNT ≤
      L.maxVertexCount := by
    unfold quadPreWrite
    rw [apply_ite RendererData.num_of_vertices_in_batch,
      show (NewBatch s).num_of_vertices_in_batch = 0 from rfl]
    simp only [QUAD_VERTEX_COUNT, CUBE_VERTEX_COUNT] at hcube ⊢
    split <;> omega
  have ht : (triPreWrite L s).num_of_vertices_in_batch + TRIANGLE_VERTEX_COUNT ≤
      L.maxVertexCount := by
    unfold triPreWrite
    rw [apply_ite RendererData.num_of_vertices_in_batch,
      show (NewBatch s).num_of_vertices_in_batch = 0 from rfl]
    simp only [QUAD_VERTEX_COUNT, TRIANGLE_VERTEX_COUNT, CUBE_VERTEX_COUNT] at hcube ⊢
    split <;> omega
  have hc : (cubePreWrite L s).num_of_vertices_in_batch + CUBE_VERTEX_COUNT ≤
      L.maxVertexCount := by
    unfold cubePreWrite
    rw [apply_ite RendererData.num_of_vertices_in_batch,
      show (NewBatch s).num_of_vertices_in_batch = 0 from rfl]
    simp only [CUBE_VERTEX_COUNT] at hcube ⊢
    split <;> omega
  have hg : (glyphPreWrite L fontTexture s).num_of_vertices_in_batch + QUAD_VERTEX_COUNT ≤
      L.maxVertexCount := by
    unfold glyphPreWrite glyphAlloc
    rcases CalculateTextureIndex_num L fontTexture
        (CalculateSquareIndices (quadPreWrite L s)) with hn | hn
    · rw [hn, CalculateSquareIndices_num]
      exact hq
    · rw [hn]
      simp only [QUAD_VERTEX_COUNT, CUBE_VERTEX_COUNT] at hcube ⊢
      omega
  exact ⟨hq, ht, hc, hg,
    fun h => by unfold quadPreWrite; rw [if_pos h],
    fun h => by unfold cubePreWrite; rw [if_pos h], rfl⟩

/-- Witness for C4 at MAX_VERTEX_COUNT = 24 from the initial state. -/
theorem c4_capacity_invariant_witness :
    CUBE_VERTEX_COUNT ≤ (⟨24, 36, 2, 4⟩ : Limits).maxVertexCount ∧
    ((quadPreWrite ⟨24, 36, 2, 4⟩ initialRendererData).num_of_vertices_in_batch +
        QUAD_VERTEX_COUNT ≤ (⟨24, 36, 2, 4⟩ : Limits).maxVertexCount ∧
      (triPreWrite ⟨24, 36, 2, 4⟩ initialRendererData).num_of_vertices_in_batch +
        TRIANGLE_VERTEX_COUNT ≤ (⟨24, 36, 2, 4⟩ : Limits).maxVertexCount ∧
      (cubePreWrite ⟨24, 36, 2, 4⟩ initialRendererData).num_of_vertices_in_batch +
        CUBE_VERTEX_COUNT ≤ (⟨24, 36, 2, 4⟩ : Limits).maxVertexCount ∧
      (glyphPreWrite ⟨24, 36, 2, 4⟩ 5 initialRendererData).num_of_vertices_in_batch +
        QUAD_VERTEX_COUNT ≤ (⟨24, 36, 2, 4⟩ : Limits).maxVertexCount ∧
      ((⟨24, 36, 2, 4⟩ : Limits).maxVertexCount <
          initialRendererData.num_of_vertices_in_batch + QUAD_VERTEX_COUNT →
        quadPreWrite ⟨24, 36, 2, 4⟩ initialRendererData =
          NewBatch initialRendererData) ∧
      ((⟨24, 36, 2, 4⟩ : Limits).maxVertexCount <
          initialRendererData.num_of_vertices_in_batch + CUBE_VERTEX_COUNT →
        cubePreWrite ⟨24, 36, 2, 4⟩ initialRendererData =
          NewBatch initialRendererData) ∧
      (DrawLine ⟨24, 36, 2, 4⟩ ⟨0, 0⟩ ⟨1, 0⟩ ⟨1, 1, 1, 1⟩ 1 1 1 0
          initialRendererData).num_of_vertices_in_batch =
        (quadPreWrite ⟨24, 36, 2, 4⟩ initialRendererData).num_of_vertices_in_batch +
          QUAD_VERTEX_COUNT) :=
  ⟨by decide,
    c4_capacity_invariant ⟨24, 36, 2, 4⟩ initialRendererData 5 ⟨0, 0⟩ ⟨1, 0⟩
      ⟨1, 1, 1, 1⟩ 1 1 1 0 (by decide)⟩

/-- The scene used to exhibit the material id actually stamped when no
material is active. -/
def c8Scene : RendererData :=
  DrawQuadPlain ⟨1000, 1500, 32, 4⟩ ⟨0, 0, 0⟩ ⟨1, 1⟩ ⟨1, 1, 1, 1⟩
    (BeginScene ⟨Mat4.identity, Mat4.identity⟩ ⟨false, false⟩ initialRendererData)

/-- Counterexample to claim C8 as stated: with no material active, the
first vertex emitted after BeginScene is stamped with material id
4294967295 (the float cast of the uint32_t holding -1, which wraps to
2 ^ 32 - 1), not with -1. -/
theorem c8_counterexample_material_sentinel :
    (c8Scene.vertices.getD 0 ⟨⟨0, 0, 0⟩, ⟨0, 0, 0, 0⟩, ⟨0, 0⟩, 0, 0⟩).material_id =
      ((2 ^ 32 - 1 : Nat) : ℚ) ∧
    ¬ (c8Scene.vertices.getD 0 ⟨⟨0, 0, 0⟩, ⟨0, 0, 0, 0⟩, ⟨0, 0⟩, 0, 0⟩).material_id =
      -1 := by
  decide

/-- Claim C8 as amended: BeginScene sets the unset sentinel, which in the
uint32_t field is the wrap of -1 to 2 ^ 32 - 1; while it is active, every
vertex emitted by any primitive emitter (quad, both triangle variants,
cube, text glyph; the line and the remaining quad variants delegate to
the core quad emitter) is stamped with the float cast of that wrapped
value, 4294967295 — not with -1. -/
theorem c8_material_stamp_wrapped_sentinel (L : Limits) (translation : Mat4)
    (color : Vec4) (texture_id : ℚ) (tex : TexCoords) (position : Vec3) (size : Vec2)
    (c s_ : ℚ) (axis : Vec3) (font : Font) (y x : ℚ) (scl : Vec2) (ch : Char)
    (camera : Camera) (fl : RenderFlags) (t s : RendererData)
    (h : s.current_material_id = 2 ^ 32 - 1) :
    (BeginScene camera fl t).current_material_id = 2 ^ 32 - 1 ∧
    ((DrawQuad L translation color texture_id tex s).vertices.drop
        (quadPreWrite L s).vertices.length).map (fun v => v.material_id) =
      List.replicate QUAD_VERTEX_COUNT ((2 ^ 32 - 1 : Nat) : ℚ) ∧
    ((DrawTriangle L position size color s).vertices.drop
        (triPreWrite L s).vertices.length).map (fun v => v.material_id) =
      List.replicate TRIANGLE_VERTEX_COUNT ((2 ^ 32 - 1 : Nat) : ℚ) ∧
    ((DrawTriangleRotated L position c s_ axis size color s).vertices.drop
        (triPreWrite L s).vertices.length).map (fun v => v.material_id) =
      List.replicate TRIANGLE_VERTEX_COUNT ((2 ^ 32 - 1 : Nat) : ℚ) ∧
    ((DrawCube L translation color texture_id tex s).vertices.drop
        (cubePreWrite L s).vertices.length).map (fun v => v.material_id) =
      List.replicate CUBE_VERTEX_COUNT ((2 ^ 32 - 1 : Nat) : ℚ) ∧
    ((RenderTextChar L font color scl y (x, s) ch).2.vertices.drop
        (glyphPreWrite L font.texture s).vertices.length).map (fun v => v.material_id) =
      List.replicate QUAD_VERTEX_COUNT ((2 ^ 32 - 1 : Nat) : ℚ) := by
  refine ⟨rfl, ?_, ?_, ?_, ?_, ?_⟩
  · simp only [DrawQuad, CalculateSquareIndices, List.drop_left, List.map_cons,
      List.map_nil, quadPreWrite_material, h, QUAD_VERTEX_COUNT, List.replicate]
  · simp only [DrawTriangle, CalculateTriangleIndices, List.drop_left, List.map_cons,
      List.map_nil, triPreWrite_material, h, TRIANGLE_VERTEX_COUNT, List.replicate]
  · simp only [DrawTriangleRotated, CalculateTriangleIndices, List.drop_left,
      List.map_cons, List.map_nil, triPreWrite_material, h, TRIANGLE_VERTEX_COUNT,
      List.replicate]
  · simp only [DrawCube, CalculateSquareIndices, List.drop_left, List.map_map,
      cubePreWrite_material, h, CUBE_VERTEX_COUNT]
    show List.map (fun _ => ((2 ^ 32 - 1 : Nat) : ℚ)) (List.range 24) =
      List.replicate 24 ((2 ^ 32 - 1 : Nat) : ℚ)
    rw [List.map_const', List.length_range]
  · simp only [RenderTextChar, glyphPreWrite, List.drop_left, List.map_cons,
      List.map_nil, glyphAlloc_material, h, QUAD_VERTEX_COUNT, List.replicate]

/-- Witness for the amended C8 from the state after BeginScene. -/
theorem c8_material_stamp_wrapped_sentinel_witness :
    (BeginScene ⟨Mat4.identity, Mat4.identity⟩ ⟨false, false⟩
        initialRendererData).current_material_id = 2 ^ 32 - 1 ∧
    ((BeginScene ⟨Mat4.identity, Mat4.identity⟩ ⟨false, false⟩
          initialRendererData).current_material_id = 2 ^ 32 - 1 ∧
      ((DrawQuad ⟨1000, 1500, 32, 4⟩ Mat4.identity ⟨1, 1, 1, 1⟩ (-1) TEX_COORDS
            (BeginScene ⟨Mat4.identity, Mat4.identity⟩ ⟨false, false⟩
              initialRendererData)).vertices.drop
          (quadPreWrite ⟨1000, 1500, 32, 4⟩
            (BeginScene ⟨Mat4.identity, Mat4.identity⟩ ⟨false, false⟩
              initialRendererData)).vertices.length).map (fun v => v.material_id) =
        List.replicate QUAD_VERTEX_COUNT ((2 ^ 32 - 1 : Nat) : ℚ) ∧
      ((DrawTriangle ⟨1000, 1500, 32, 4⟩ ⟨0, 0, 0⟩ ⟨1, 1⟩ ⟨1, 1, 1, 1⟩
            (BeginScene ⟨Mat4.identity, Mat4.identity⟩ ⟨false, false⟩
              initialRendererData)).vertices.drop
          (triPreWrite ⟨1000, 1500, 32, 4⟩
            (BeginScene ⟨Mat4.identity, Mat4.identity⟩ ⟨false, false⟩
              initialRendererData)).vertices.length).map (fun v => v.material_id) =
        List.replicate TRIANGLE_VERTEX_COUNT ((2 ^ 32 - 1 : Nat) : ℚ) ∧
      ((DrawTriangleRotated ⟨1000, 1500, 32, 4⟩ ⟨0, 0, 0⟩ 1 0 ⟨0, 0, 1⟩ ⟨1, 1⟩
            ⟨1, 1, 1, 1⟩
            (BeginScene ⟨Mat4.identity, Mat4.identity⟩ ⟨false, false⟩
              initialRendererData)).vertices.drop
          (triPreWrite ⟨1000, 1500, 32, 4⟩
            (BeginScene ⟨Mat4.identity, Mat4.identity⟩ ⟨false, false⟩
              initialRendererData)).vertices.length).map (fun v => v.material_id) =
        List.replicate TRIANGLE_VERTEX_COUNT ((2 ^ 32 - 1 : Nat) : ℚ) ∧
      ((DrawCube ⟨1000, 1500, 32, 4⟩ Mat4.identity ⟨1, 1, 1, 1⟩ (-1) TEX_COORDS
            (BeginScene ⟨Mat4.identity, Mat4.identity⟩ ⟨false, false⟩
              initialRendererData)).vertices.drop
          (cubePreWrite ⟨1000, 1500, 32, 4⟩
            (BeginScene ⟨Mat4.identity, Mat4.identity⟩ ⟨false, false⟩
              initialRendererData)).vertices.length).map (fun v => v.material_id) =
        List.replicate CUBE_VERTEX_COUNT ((2 ^ 32 - 1 : Nat) : ℚ) ∧
      ((RenderTextChar ⟨1000, 1500, 32, 4⟩ ⟨fun _ => ⟨⟨1, 1⟩, ⟨0, 0⟩, 64, 0⟩, 16, 16, 16, 5⟩
            ⟨1, 1, 1, 1⟩ ⟨1, 1⟩ 0 (0,
            BeginScene ⟨Mat4.identity, Mat4.identity⟩ ⟨false, false⟩
              initialRendererData) 'A').2.vertices.drop
          (glyphPreWrite ⟨1000, 1500, 32, 4⟩
            (⟨fun _ => ⟨⟨1, 1⟩, ⟨0, 0⟩, 64, 0⟩, 16, 16, 16, 5⟩ : Font).texture
            (BeginScene ⟨Mat4.identity, Mat4.identity⟩ ⟨false, false⟩
              initialRendererData)).vertices.length).map (fun v => v.material_id) =
        List.replicate QUAD_VERTEX_COUNT ((2 ^ 32 - 1 : Nat) : ℚ)) :=
  ⟨rfl,
    c8_material_stamp_wrapped_sentinel ⟨1000, 1500, 32, 4⟩ Mat4.identity ⟨1, 1, 1, 1⟩
      (-1) TEX_COORDS ⟨0, 0, 0⟩ ⟨1, 1⟩ 1 0 ⟨0, 0, 1⟩
      ⟨fun _ => ⟨⟨1, 1⟩, ⟨0, 0⟩, 64, 0⟩, 16, 16, 16, 5⟩ 0 0 ⟨1, 1⟩ 'A'
      ⟨Mat4.identity, Mat4.identity⟩ ⟨false, false⟩ initialRendererData
      (BeginScene ⟨Mat4.identity, Mat4.identity⟩ ⟨false, false⟩ initialRendererData)
      (by decide)⟩

/-- Claim C10: the translation column of the model matrix of the
plain-color DrawRotatedQuad variant is (position.x, position.y, 0) for
every rotation — built directly from the position with Z forced to 0,
never consulting the origin convention flag — while the textured variant
inherits the translation column of GetModelMatrix, which shifts by half
the size under the top-left-corner flag and not under the center flag. -/
theorem c10_rotated_quad_convention_asymmetry (flags : RenderFlags) (position : Vec3)
    (size : Vec2) (c s_ : ℚ) (axis : Vec3) :
    (rotatedQuadPlainModel position c s_ axis size).c3 =
      ⟨position.x, position.y, 0, 1⟩ ∧
    (rotatedQuadTexturedModel flags position c s_ axis size).c3 =
      (GetModelMatrix flags position size).c3 ∧
    (GetModelMatrix ⟨flags.polygonMode, true⟩ position size).c3 =
      ⟨position.x + size.x / 2, position.y + size.y / 2, position.z, 1⟩ ∧
    (GetModelMatrix ⟨flags.polygonMode, false⟩ position size).c3 =
      ⟨position.x, position.y, position.z, 1⟩ := by
  refine ⟨?_, ?_, ?_, ?_⟩
  · unfold rotatedQuadPlainModel
    rw [Mat4.mul_c3, scaleM_c3, Mat4.mulVec_unitw, Mat4.mul_c3, rotationMat_c3,
      Mat4.mulVec_unitw, translateM_c3]
  · unfold rotatedQuadTexturedModel rotateM
    rw [Mat4.mul_c3, rotationMat_c3, Mat4.mulVec_unitw]
  · unfold GetModelMatrix
    rw [if_pos rfl, Mat4.mul_c3, scaleM_c3, Mat4.mulVec_unitw, translateM_c3]
  · unfold GetModelMatrix
    rw [if_neg (show ¬ ((⟨flags.polygonMode, false⟩ : RenderFlags).topLeftCornerPos = true)
        from Bool.false_ne_true),
      Mat4.mul_c3, scaleM_c3, Mat4.mulVec_unitw, translateM_c3]

end Ember
